import Mathlib

/-!
Verification of the water-quality dashboard core (src/src/App.tsx).

The core of the repository is a sliding-window history buffer fed by a
real-time subscription handler.  We embed the handler shallowly:

* JavaScript numbers are modelled as `JSNum` (`ℚ` plus an explicit `NaN`),
  with JS comparison semantics (every comparison involving `NaN` is false).
* A JS `Date` value is modelled as `Option Int` (milliseconds since the
  epoch; `none` is an Invalid Date, whose `getTime()` is `NaN`).
* The `new Date(string)` builtin is external to the repository, so the
  handler is parameterised over a `parseDate : String → Option Int`
  function (`none` = Invalid Date); a small concrete instance
  `jsParseDate` (numeric-literal timestamps) is used for closed instances.
* The `Number(x)` builtin on strings is modelled by `parseJSNumber`, a
  decimal-literal parser: a string that is not a numeric literal yields
  `none`, which `toNumber` turns into `JSNum.nan`, exactly as
  `Number("abc")` is `NaN` in JS.

The React component state (`tds`, `temperature`, `lastUpdated`, `online`,
`history`) becomes the structure `AppState`; the `onValue` success and
error callbacks become the pure transitions `handleSnapshot` and
`handleError`.  The code reads `Date.now()` once when building the fallback
timestamp and once inside the history updater; both reads happen in the
same synchronous handler run and are modelled by the single clock `nowT`.
-/

namespace WaterQuality

/-- A JavaScript number: a rational value or `NaN`. -/
inductive JSNum where
  | num (q : ℚ)
  | nan
  deriving DecidableEq, Repr

/-- JS `<=` on numbers: any comparison with `NaN` is false. -/
def jsLe : JSNum → JSNum → Bool
  | JSNum.num a, JSNum.num b => decide (a ≤ b)
  | _, _ => false

/-- JS `>=` on numbers: any comparison with `NaN` is false. -/
def jsGe : JSNum → JSNum → Bool
  | JSNum.num a, JSNum.num b => decide (b ≤ a)
  | _, _ => false

/-- A raw field of the feed record: a number or a string
(absence is `Option` at the use site). -/
inductive RawField where
  | num (q : ℚ)
  | str (s : String)
  deriving DecidableEq, Repr

/-- Digits of a decimal numeral to a natural number; `none` when the
list is empty or contains a non-digit. -/
def digitsToNat (cs : List Char) : Option Nat :=
  if cs.isEmpty then none
  else
    cs.foldl
      (fun acc c =>
        acc.bind fun n => if c.isDigit then some (10 * n + (c.toNat - 48)) else none)
      (some 0)

/-- Unsigned decimal literal (`"123"`, `"500.1"`) to a rational. -/
def parseUnsigned (cs : List Char) : Option ℚ :=
  match cs.splitOn '.' with
  | [w] => (digitsToNat w).map (fun n => (n : ℚ))
  | [w, f] =>
    match digitsToNat w, digitsToNat f with
    | some a, some b => some ((a : ℚ) + (b : ℚ) / ((10 : ℚ) ^ f.length))
    | _, _ => none
  | _ => none

/-- Model of the JS `Number(string)` builtin on the string fragment the
feed can carry: the empty string is `0`, an optionally signed decimal
literal is its value, anything else is `NaN` (`none` here). -/
def parseJSNumber (s : String) : Option ℚ :=
  match s.data with
  | [] => some 0
  | c :: rest =>
    if c = '-' then (parseUnsigned rest).map (fun q => -q)
    else if c = '+' then parseUnsigned rest
    else parseUnsigned (c :: rest)

/-- `Number(x ?? 0)` as the handler applies it to a raw field:
absent (`undefined`) becomes `0` via `??`, a number passes through,
a string goes through `Number` and an unparseable one becomes `NaN`. -/
def toNumber : Option RawField → JSNum
  | none => JSNum.num 0
  | some (RawField.num q) => JSNum.num q
  | some (RawField.str s) =>
    match parseJSNumber s with
    | some q => JSNum.num q
    | none => JSNum.nan

/-- `value.timestamp ? new Date(value.timestamp) : new Date()`:
an absent or empty (falsy) timestamp string falls back to the current
time; a non-empty string is handed to `Date` parsing, which yields an
Invalid Date (`none`) when it does not parse. -/
def normalizeTimestamp (parseDate : String → Option Int) (nowT : Int) :
    Option String → Option Int
  | none => some nowT
  | some s => if s = "" then some nowT else parseDate s

/-- Concrete model of `new Date(string)` used for closed instances:
a digit string is that many milliseconds since the epoch, anything
else is an Invalid Date. -/
def jsParseDate (s : String) : Option Int :=
  (digitsToNat s.data).map Int.ofNat

/-- One buffered reading (`HistoryPoint` in the source). -/
structure HistoryPoint where
  time : Option Int
  tds : JSNum
  temperature : JSNum
  deriving DecidableEq, Repr

/-- The eviction predicate of the history updater:
`now - point.time.getTime() <= 60_000`.  An Invalid Date makes the
left side `NaN`, so the comparison is false and the point is dropped. -/
def withinWindow (nowT : Int) (p : HistoryPoint) : Bool :=
  match p.time with
  | some t => decide (nowT - t ≤ 60000)
  | none => false

/-- The history update of the handler: append the new point, then keep
only the points inside the trailing 60-second window. -/
def appendHistory (prev : List HistoryPoint) (r : HistoryPoint) (nowT : Int) :
    List HistoryPoint :=
  (prev ++ [r]).filter (withinWindow nowT)

/-- The raw feed record (`snapshot.val()` when non-null). -/
structure RawRecord where
  tds : Option RawField
  temperature : Option RawField
  timestamp : Option String
  deriving DecidableEq, Repr

/-- The component state of `App`. -/
structure AppState where
  tds : Option JSNum
  temperature : Option JSNum
  lastUpdated : Option (Option Int)
  online : Bool
  history : List HistoryPoint
  deriving DecidableEq, Repr

/-- The initial `useState` values: everything null/empty, offline. -/
def initState : AppState :=
  { tds := none, temperature := none, lastUpdated := none,
    online := false, history := [] }

/-- The success callback of `onValue`: a null payload only flips
`online` off; otherwise the payload is normalized, the current values
and `online` are set, and the history is appended-then-evicted. -/
def handleSnapshot (parseDate : String → Option Int) (nowT : Int)
    (value : Option RawRecord) (s : AppState) : AppState :=
  match value with
  | none => { s with online := false }
  | some v =>
    let tdsVal := toNumber v.tds
    let tempVal := toNumber v.temperature
    let ts := normalizeTimestamp parseDate nowT v.timestamp
    { tds := some tdsVal
      temperature := some tempVal
      lastUpdated := some ts
      online := true
      history := appendHistory s.history ⟨ts, tdsVal, tempVal⟩ nowT }

/-- The error callback of `onValue`: it only flips `online` off. -/
def handleError (s : AppState) : AppState :=
  { s with online := false }

/-- Status labels of the dashboard cards. -/
inductive StatusLabel where
  | unknown
  | safe
  | high
  | outOfRange
  deriving DecidableEq, Repr

/-- `TDS_SAFE_MAX` (mg/L). -/
def TDS_SAFE_MAX : ℚ := 500

/-- `TEMP_SAFE_MIN` (°C). -/
def TEMP_SAFE_MIN : ℚ := 15

/-- `TEMP_SAFE_MAX` (°C). -/
def TEMP_SAFE_MAX : ℚ := 30

/-- `tdsStatus`: the dash placeholder when no reading yet, `Safe` when
`tds <= TDS_SAFE_MAX`, else `High`. -/
def tdsStatus : Option JSNum → StatusLabel
  | none => StatusLabel.unknown
  | some v =>
    if jsLe v (JSNum.num TDS_SAFE_MAX) then StatusLabel.safe else StatusLabel.high

/-- `tempStatus`: the dash placeholder when no reading yet, `Safe` when
`TEMP_SAFE_MIN <= temperature <= TEMP_SAFE_MAX`, else `Out of range`. -/
def tempStatus : Option JSNum → StatusLabel
  | none => StatusLabel.unknown
  | some v =>
    if jsGe v (JSNum.num TEMP_SAFE_MIN) && jsLe v (JSNum.num TEMP_SAFE_MAX) then
      StatusLabel.safe
    else StatusLabel.outOfRange

/-! ### Helper lemmas on the history update -/

/-- Membership in the updated history: a point survives iff it was in the
old buffer or is the new point, and it passes the window check. -/
lemma mem_appendHistory (prev : List HistoryPoint) (r p : HistoryPoint)
    (nowT : Int) :
    p ∈ appendHistory prev r nowT ↔
      (p ∈ prev ∨ p = r) ∧ withinWindow nowT p = true := by
  simp [appendHistory, List.mem_filter, or_and_right]

/-- A point with a valid time passes the window check iff its age is at
most 60 000 ms. -/
lemma withinWindow_some (nowT t : Int) (a b : JSNum) :
    withinWindow nowT ⟨some t, a, b⟩ = true ↔ nowT - t ≤ 60000 := by
  simp [withinWindow]

/-- An Invalid-Date point never passes the window check. -/
lemma withinWindow_none (nowT : Int) (a b : JSNum) :
    withinWindow nowT ⟨none, a, b⟩ = false := rfl

/-- The update is a filter of the old buffer with the new point appended
when the new point passes the window check. -/
lemma appendHistory_eq_filter_append (prev : List HistoryPoint)
    (r : HistoryPoint) (nowT : Int) (h : withinWindow nowT r = true) :
    appendHistory prev r nowT = prev.filter (withinWindow nowT) ++ [r] := by
  simp [appendHistory, List.filter_append, h]

/-- The update drops the new point when it fails the window check. -/
lemma appendHistory_eq_filter (prev : List HistoryPoint)
    (r : HistoryPoint) (nowT : Int) (h : withinWindow nowT r = false) :
    appendHistory prev r nowT = prev.filter (withinWindow nowT) := by
  simp [appendHistory, List.filter_append, h]

/-- Failing the window check is monotone in the clock: a point too old
at `nowT` is still too old at any later `nowT2`. -/
lemma withinWindow_mono (nowT nowT2 : Int) (p : HistoryPoint)
    (h : withinWindow nowT p = false) (hle : nowT ≤ nowT2) :
    withinWindow nowT2 p = false := by
  cases p with
  | mk time tds temperature =>
    cases time with
    | none => rfl
    | some t =>
      simp only [withinWindow, decide_eq_false_iff_not, not_le] at h ⊢
      omega

/-- On a non-null payload, the resulting state fields, with the new
history point spelled out. -/
lemma handleSnapshot_some (parseDate : String → Option Int) (nowT : Int)
    (v : RawRecord) (s : AppState) :
    handleSnapshot parseDate nowT (some v) s =
      { tds := some (toNumber v.tds)
        temperature := some (toNumber v.temperature)
        lastUpdated := some (normalizeTimestamp parseDate nowT v.timestamp)
        online := true
        history := appendHistory s.history
          ⟨normalizeTimestamp parseDate nowT v.timestamp,
            toNumber v.tds, toNumber v.temperature⟩ nowT } := rfl

/-! ### Claim theorems -/

/-- C1.  Immediately after each append, the history buffer contains
exactly those appended elements whose age satisfies
`now - timestamp ≤ 60000` ms: every element strictly older is evicted,
an element aged exactly 60 000 ms is retained, and every retained
element has a valid timestamp within the window. -/
theorem append_window_exact (prev : List HistoryPoint) (r : HistoryPoint)
    (nowT : Int) :
    (∀ p ∈ appendHistory prev r nowT,
      ∃ t, p.time = some t ∧ nowT - t ≤ 60000) ∧
    (∀ p t, p.time = some t →
      (p ∈ appendHistory prev r nowT ↔
        p ∈ prev ++ [r] ∧ nowT - t ≤ 60000)) := by
  constructor
  · intro p hp
    rcases (mem_appendHistory prev r p nowT).mp hp with ⟨-, hw⟩
    cases htime : p.time with
    | none =>
      rw [withinWindow, htime] at hw
      exact absurd hw (by simp)
    | some t =>
      refine ⟨t, rfl, ?_⟩
      rw [withinWindow, htime] at hw
      exact of_decide_eq_true hw
  · intro p t ht
    rw [mem_appendHistory, withinWindow, ht]
    simp [List.mem_append]

/-- Witness for C1: a reading aged exactly 60 000 ms (timestamp 1000,
clock 61000) is retained by the append. -/
theorem append_window_exact_witness :
    (⟨some 1000, JSNum.num 3, JSNum.num 4⟩ : HistoryPoint) ∈
      appendHistory [] ⟨some 1000, JSNum.num 3, JSNum.num 4⟩ 61000 :=
  ((append_window_exact [] ⟨some 1000, JSNum.num 3, JSNum.num 4⟩ 61000).2
      ⟨some 1000, JSNum.num 3, JSNum.num 4⟩ 1000 rfl).mpr
    ⟨by simp, by decide⟩

/-- C2 counterexample.  The input `{tds: "abc", temperature: undefined}`
does not normalize `tds` to 0: `Number("abc")` is `NaN` (only the
null-coalescing fallback, not parse failure, yields 0), and the `NaN`
reaches the state. -/
theorem malformed_input_counterexample :
    toNumber (some (RawField.str ("abc"))) = JSNum.nan ∧
    JSNum.nan ≠ JSNum.num 0 ∧
    (handleSnapshot jsParseDate 0
        (some ⟨some (RawField.str ("abc")), none, none⟩) initState).tds =
      some JSNum.nan := by
  refine ⟨by decide, by decide, rfl⟩

/-- C2 amended.  Normalization never raises an error; an absent field is
coerced to 0; but a present unparseable string is coerced to `NaN`, which
flows into the state and the buffer: `{tds: "abc", temperature: undefined}`
normalizes to `{tds: NaN, temperature: 0}`. -/
theorem malformed_input_amended :
    toNumber none = JSNum.num 0 ∧
    toNumber (some (RawField.str ("abc"))) = JSNum.nan ∧
    (handleSnapshot jsParseDate 0
        (some ⟨some (RawField.str ("abc")), none, none⟩) initState).tds =
      some JSNum.nan ∧
    (handleSnapshot jsParseDate 0
        (some ⟨some (RawField.str ("abc")), none, none⟩) initState).temperature =
      some (JSNum.num 0) ∧
    (handleSnapshot jsParseDate 0
        (some ⟨some (RawField.str ("abc")), none, none⟩) initState).history =
      [⟨some 0, JSNum.nan, JSNum.num 0⟩] := by
  refine ⟨rfl, by decide, rfl, rfl, by decide⟩

/-- C3.  For a present numeric reading, `tdsStatus` is `Safe` iff
`tds ≤ 500` and `High` otherwise; 500 itself is `Safe`, 500.1 is `High`;
with no reading yet the status is the unknown placeholder. -/
theorem tdsStatus_spec :
    (∀ q : ℚ,
      (tdsStatus (some (JSNum.num q)) = StatusLabel.safe ↔ q ≤ 500)) ∧
    (∀ q : ℚ,
      (tdsStatus (some (JSNum.num q)) = StatusLabel.high ↔ ¬ q ≤ 500)) ∧
    tdsStatus (some (JSNum.num 500)) = StatusLabel.safe ∧
    tdsStatus (some (JSNum.num (5001 / 10))) = StatusLabel.high ∧
    tdsStatus none = StatusLabel.unknown := by
  refine ⟨?_, ?_, ?_, ?_, rfl⟩
  · intro q
    by_cases h : q ≤ 500 <;> simp [tdsStatus, jsLe, TDS_SAFE_MAX, h]
  · intro q
    by_cases h : q ≤ 500 <;> simp [tdsStatus, jsLe, TDS_SAFE_MAX, h]
  · simp [tdsStatus, jsLe, TDS_SAFE_MAX]
  · have h : ¬ ((5001 : ℚ) / 10 ≤ 500) := by norm_num
    simp [tdsStatus, jsLe, TDS_SAFE_MAX, h]

/-- Witness for C3: a TDS reading of 300 mg/L classifies as safe. -/
theorem tdsStatus_spec_witness :
    tdsStatus (some (JSNum.num 300)) = StatusLabel.safe :=
  (tdsStatus_spec.1 300).mpr (by norm_num)

/-- C4.  For a present numeric reading, `tempStatus` is `Safe` iff
`15 ≤ temp ≤ 30` (both ends inclusive) and `Out of range` otherwise;
14.999 and 30.001 are out of range; with no reading yet the status is the
unknown placeholder. -/
theorem tempStatus_spec :
    (∀ q : ℚ,
      (tempStatus (some (JSNum.num q)) = StatusLabel.safe ↔
        15 ≤ q ∧ q ≤ 30)) ∧
    (∀ q : ℚ,
      (tempStatus (some (JSNum.num q)) = StatusLabel.outOfRange ↔
        ¬ (15 ≤ q ∧ q ≤ 30))) ∧
    tempStatus (some (JSNum.num 15)) = StatusLabel.safe ∧
    tempStatus (some (JSNum.num 30)) = StatusLabel.safe ∧
    tempStatus (some (JSNum.num (14999 / 1000))) = StatusLabel.outOfRange ∧
    tempStatus (some (JSNum.num (30001 / 1000))) = StatusLabel.outOfRange ∧
    tempStatus none = StatusLabel.unknown := by
  have key : ∀ q : ℚ,
      (tempStatus (some (JSNum.num q)) = StatusLabel.safe ↔
        15 ≤ q ∧ q ≤ 30) := by
    intro q
    by_cases h1 : 15 ≤ q <;> by_cases h2 : q ≤ 30 <;>
      simp [tempStatus, jsLe, jsGe, TEMP_SAFE_MIN, TEMP_SAFE_MAX, h1, h2]
  refine ⟨key, ?_, ?_, ?_, ?_, ?_, rfl⟩
  · intro q
    by_cases h1 : 15 ≤ q <;> by_cases h2 : q ≤ 30 <;>
      simp [tempStatus, jsLe, jsGe, TEMP_SAFE_MIN, TEMP_SAFE_MAX, h1, h2]
  · exact (key 15).mpr (by norm_num)
  · exact (key 30).mpr (by norm_num)
  · have h1 : ¬ ((15 : ℚ) ≤ 14999 / 1000) := by norm_num
    simp [tempStatus, jsLe, jsGe, TEMP_SAFE_MIN, TEMP_SAFE_MAX, h1]
  · have h2 : ¬ ((30001 : ℚ) / 1000 ≤ 30) := by norm_num
    simp [tempStatus, jsLe, jsGe, TEMP_SAFE_MIN, TEMP_SAFE_MAX, h2]

/-- Witness for C4: a temperature reading of 22 °C classifies as safe. -/
theorem tempStatus_spec_witness :
    tempStatus (some (JSNum.num 22)) = StatusLabel.safe :=
  (tempStatus_spec.1 22).mpr (by norm_num)

/-- C5 counterexample.  A present non-empty timestamp string that does not
parse does not fall back to the normalization time: the reading gets an
Invalid Date, and `lastUpdated` carries it rather than the clock value. -/
theorem timestamp_fallback_counterexample :
    normalizeTimestamp jsParseDate 12345 (some ("garbage")) = none ∧
    (none : Option Int) ≠ some 12345 ∧
    (handleSnapshot jsParseDate 12345
        (some ⟨none, none, some ("garbage")⟩) initState).lastUpdated =
      some none := by
  refine ⟨by decide, by decide, rfl⟩

/-- C5 amended.  The normalized timestamp is the parsed date when the
string is present, non-empty and parses; it is the normalization time
when the field is absent or the empty string; a present non-empty
unparseable string yields an Invalid Date (not the normalization time). -/
theorem timestamp_normalization_amended (parseDate : String → Option Int)
    (nowT : Int) :
    normalizeTimestamp parseDate nowT none = some nowT ∧
    normalizeTimestamp parseDate nowT (some ("")) = some nowT ∧
    (∀ s, s ≠ "" →
      normalizeTimestamp parseDate nowT (some s) = parseDate s) := by
  refine ⟨rfl, by simp [normalizeTimestamp], ?_⟩
  intro s hs
  simp [normalizeTimestamp, hs]

/-- Witness for C5 amended: a parseable timestamp string is taken over the
clock, an unparseable one yields an Invalid Date. -/
theorem timestamp_normalization_amended_witness :
    normalizeTimestamp jsParseDate 7 (some ("123")) = some 123 ∧
    normalizeTimestamp jsParseDate 7 (some ("garbage2")) = none := by
  have h1 := (timestamp_normalization_amended jsParseDate 7).2.2
    ("123") (by decide)
  have h2 := (timestamp_normalization_amended jsParseDate 7).2.2
    ("garbage2") (by decide)
  rw [h1, h2]
  exact ⟨by decide, by decide⟩

/-- C6.  A null payload event only flips the online flag off: the history
buffer and the current values are untouched. -/
theorem null_payload_preserves_state (parseDate : String → Option Int)
    (nowT : Int) (s : AppState) :
    (handleSnapshot parseDate nowT none s).online = false ∧
    (handleSnapshot parseDate nowT none s).history = s.history ∧
    (handleSnapshot parseDate nowT none s).tds = s.tds ∧
    (handleSnapshot parseDate nowT none s).temperature = s.temperature ∧
    (handleSnapshot parseDate nowT none s).lastUpdated = s.lastUpdated :=
  ⟨rfl, rfl, rfl, rfl, rfl⟩

/-- C7.  The subscription error callback sets the online flag to false
and changes nothing else: no buffer mutation, no change to the current
values. -/
theorem error_only_flips_online (s : AppState) :
    handleError s = { s with online := false } ∧
    (handleError s).online = false ∧
    (handleError s).history = s.history ∧
    (handleError s).tds = s.tds ∧
    (handleError s).temperature = s.temperature ∧
    (handleError s).lastUpdated = s.lastUpdated :=
  ⟨rfl, rfl, rfl, rfl, rfl, rfl⟩

/-- C8 counterexample.  The appended reading is not always at the end of
the buffer: a reading whose timestamp is 60 001 ms behind the clock is
dropped by the very filter of its own append, so the result does not end
with it (here the result is empty). -/
theorem append_order_counterexample :
    (⟨some 0, JSNum.num 1, JSNum.num 1⟩ : HistoryPoint) ∉
      appendHistory [] ⟨some 0, JSNum.num 1, JSNum.num 1⟩ 60001 ∧
    appendHistory [] ⟨some 0, JSNum.num 1, JSNum.num 1⟩ 60001 = [] := by
  exact ⟨by decide, by decide⟩

/-- C8 amended.  Append never reorders: the survivors are a sublist of
the old buffer followed by the new reading; the new reading sits at the
end exactly when it passes the window check (otherwise the result is just
the filtered old buffer); nothing outside the old buffer and the new
reading ever appears; and a point outside the window stays outside at
every later clock, so an evicted element is never reintroduced. -/
theorem append_order_amended (prev : List HistoryPoint) (r : HistoryPoint)
    (nowT : Int) :
    List.Sublist (appendHistory prev r nowT) (prev ++ [r]) ∧
    (withinWindow nowT r = true →
      appendHistory prev r nowT = prev.filter (withinWindow nowT) ++ [r]) ∧
    (withinWindow nowT r = false →
      appendHistory prev r nowT = prev.filter (withinWindow nowT)) ∧
    (∀ p, p ∈ appendHistory prev r nowT → p ∈ prev ∨ p = r) ∧
    (∀ p nowT2, withinWindow nowT p = false → nowT ≤ nowT2 →
      withinWindow nowT2 p = false) := by
  refine ⟨List.filter_sublist _,
    appendHistory_eq_filter_append prev r nowT,
    appendHistory_eq_filter prev r nowT, ?_, ?_⟩
  · intro p hp
    exact ((mem_appendHistory prev r p nowT).mp hp).1
  · intro p nowT2 h hle
    exact withinWindow_mono nowT nowT2 p h hle

/-- Witness for C8 amended: an in-window reading lands at the end, after
the filtered old buffer. -/
theorem append_order_amended_witness :
    appendHistory [⟨some 0, JSNum.num 1, JSNum.num 1⟩,
        ⟨some 30000, JSNum.num 2, JSNum.num 2⟩]
      ⟨some 61000, JSNum.num 3, JSNum.num 3⟩ 61000 =
      List.filter (withinWindow 61000)
        [⟨some 0, JSNum.num 1, JSNum.num 1⟩,
          ⟨some 30000, JSNum.num 2, JSNum.num 2⟩] ++
        [⟨some 61000, JSNum.num 3, JSNum.num 3⟩] :=
  (append_order_amended
    [⟨some 0, JSNum.num 1, JSNum.num 1⟩,
      ⟨some 30000, JSNum.num 2, JSNum.num 2⟩]
    ⟨some 61000, JSNum.num 3, JSNum.num 3⟩ 61000).2.1 (by decide)

/-- C9.  In the initial state both current values are null (so both
statuses report the unknown placeholder), the buffer is empty, and the
online flag is false. -/
theorem init_state_unknown_offline :
    initState.tds = none ∧
    initState.temperature = none ∧
    initState.online = false ∧
    initState.history = [] ∧
    tdsStatus initState.tds = StatusLabel.unknown ∧
    tempStatus initState.temperature = StatusLabel.unknown :=
  ⟨rfl, rfl, rfl, rfl, rfl, rfl⟩

/-- C10.  A successful payload whose normalized timestamp is more than
60 000 ms behind the append-time clock is evicted in the same step: the
new point is absent from the resulting buffer, which is just the filtered
old buffer, while the online flag and the current values are still set
from that payload — so the displayed values can come from a reading not
in the buffer, and the buffer can be empty while online is true. -/
theorem stale_reading_evicted (parseDate : String → Option Int)
    (nowT : Int) (v : RawRecord) (s : AppState) (t : Int)
    (h1 : normalizeTimestamp parseDate nowT v.timestamp = some t)
    (h2 : 60000 < nowT - t) :
    (⟨some t, toNumber v.tds, toNumber v.temperature⟩ : HistoryPoint) ∉
      (handleSnapshot parseDate nowT (some v) s).history ∧
    (handleSnapshot parseDate nowT (some v) s).history =
      s.history.filter (withinWindow nowT) ∧
    (handleSnapshot parseDate nowT (some v) s).online = true ∧
    (handleSnapshot parseDate nowT (some v) s).tds =
      some (toNumber v.tds) ∧
    (handleSnapshot parseDate nowT (some v) s).temperature =
      some (toNumber v.temperature) := by
  have hww : withinWindow nowT
      (⟨some t, toNumber v.tds, toNumber v.temperature⟩ : HistoryPoint) =
      false := by
    simp only [withinWindow, decide_eq_false_iff_not, not_le]
    omega
  have hhist : (handleSnapshot parseDate nowT (some v) s).history =
      appendHistory s.history
        ⟨some t, toNumber v.tds, toNumber v.temperature⟩ nowT := by
    rw [handleSnapshot_some, h1]
  refine ⟨?_, ?_, rfl, rfl, rfl⟩
  · intro hmem
    rw [hhist] at hmem
    have := ((mem_appendHistory _ _ _ _).mp hmem).2
    rw [hww] at this
    exact Bool.false_ne_true this
  · rw [hhist]
    exact appendHistory_eq_filter _ _ _ hww

/-- Witness for C10: a payload stamped 61 s in the past, arriving in the
initial state, leaves an empty buffer while the online flag is true and
the current TDS value is the payload's. -/
theorem stale_reading_evicted_witness :
    (handleSnapshot jsParseDate 61000
        (some ⟨some (RawField.num 300), some (RawField.num 22),
          some ("0")⟩) initState).history = [] ∧
    (handleSnapshot jsParseDate 61000
        (some ⟨some (RawField.num 300), some (RawField.num 22),
          some ("0")⟩) initState).online = true ∧
    (handleSnapshot jsParseDate 61000
        (some ⟨some (RawField.num 300), some (RawField.num 22),
          some ("0")⟩) initState).tds = some (JSNum.num 300) := by
  have h := stale_reading_evicted jsParseDate 61000
    ⟨some (RawField.num 300), some (RawField.num 22), some ("0")⟩
    initState 0 (by decide) (by decide)
  exact ⟨h.2.1, h.2.2.1, h.2.2.2.1⟩

end WaterQuality
